import Mathlib

/-!
Verification development for the galevm interpreter core.

Shallow embedding of the Rust sources under src/: the binary codec
(vm.rs), the literal value universe (tks/lit.rs), the scope container and
its codec (var.rs), the standard-library functions (stdlib/math.rs,
stdlib/mem.rs), keyword processing (tks/kw.rs), the assignment handler
(tks/expr_handlers.rs), scope lookup and merging (var.rs, visit.rs) and
the function-call machinery (fns.rs).

Machine integers are modelled as Nat/Int with explicit wrap-around where
the Rust code can overflow; byte buffers are lists of naturals below 256;
fallible operations (short buffers, unwraps, Rust panics, bail-style
errors) return Option, with none covering every failure mode.
-/

namespace GaleVM

/-- A byte buffer (Vec of u8 in the source); every element is kept below
256 by construction of the writers. -/
abbrev Bytes := List Nat

/-- A Rust String, modelled by its UTF-8 byte content (Rust strings are
exactly a vector of UTF-8 bytes). -/
abbrev RStr := List Nat

/-! ## Big-endian integer primitives (vm.rs, `_int_alloc_impl!`) -/

/-- Big-endian byte encoding of a natural in `w` bytes (Rust
`to_be_bytes`; high bits beyond the width are dropped exactly as the
fixed-width integer would). -/
def natToBE : Nat → Nat → List Nat
  | 0, _ => []
  | w + 1, n => (n / 256 ^ w % 256) :: natToBE w n

/-- Big-endian byte decoding (Rust `from_be_bytes`). -/
def natFromBE (bs : List Nat) : Nat := bs.foldl (fun a b => a * 256 + b) 0

/-- Rust `Cursor::read_exact` into an `n`-byte array: takes `n` bytes at
`pos`, advancing the position; errors when fewer than `n` bytes remain. -/
def readExact (data : Bytes) (pos n : Nat) : Option (Bytes × Nat) :=
  if pos + n ≤ data.length then some ((data.drop pos).take n, pos + n) else none

/-- u8::read (vm.rs). -/
def u8read (data : Bytes) (pos : Nat) : Option (Nat × Nat) :=
  (readExact data pos 1).map fun p => (natFromBE p.1, p.2)

/-- u16::read (vm.rs): two bytes, big-endian. -/
def u16read (data : Bytes) (pos : Nat) : Option (Nat × Nat) :=
  (readExact data pos 2).map fun p => (natFromBE p.1, p.2)

/-- u32::read (vm.rs): four bytes, big-endian. -/
def u32read (data : Bytes) (pos : Nat) : Option (Nat × Nat) :=
  (readExact data pos 4).map fun p => (natFromBE p.1, p.2)

/-- u64::read (vm.rs): eight bytes, big-endian. -/
def u64read (data : Bytes) (pos : Nat) : Option (Nat × Nat) :=
  (readExact data pos 8).map fun p => (natFromBE p.1, p.2)

/-- u8::write (vm.rs). -/
def u8write (n : Nat) : Bytes := [n % 256]

/-- u32::write (vm.rs): big-endian. -/
def u32write (n : Nat) : Bytes := natToBE 4 n

/-- u64::write (vm.rs): big-endian. -/
def u64write (n : Nat) : Bytes := natToBE 8 n

/-- i64::write (vm.rs): `to_be_bytes` of the two's-complement value. -/
def i64write (v : Int) : Bytes := natToBE 8 (v % (2 ^ 64 : Int)).toNat

/-- i64::read (vm.rs): `from_be_bytes`, interpreted in two's complement. -/
def i64read (data : Bytes) (pos : Nat) : Option (Int × Nat) :=
  (readExact data pos 8).map fun p =>
    let n := natFromBE p.1
    (if n < 2 ^ 63 then (n : Int) else (n : Int) - 2 ^ 64, p.2)

/-- f64::write (vm.rs): the IEEE-754 double is modelled by its 64-bit
pattern; `to_be_bytes` writes exactly those bits big-endian. -/
def f64write (bits : Nat) : Bytes := natToBE 8 bits

/-- f64::read (vm.rs): `from_be_bytes`, recovering the same bit pattern. -/
def f64read (data : Bytes) (pos : Nat) : Option (Nat × Nat) := u64read data pos

/-- bool::write (vm.rs): a single 0x01/0x00 byte. -/
def boolWrite (b : Bool) : Bytes := [if b then 1 else 0]

/-- bool::read (vm.rs): reads one byte, true iff it is 0x01. -/
def boolRead (data : Bytes) (pos : Nat) : Option (Bool × Nat) :=
  (readExact data pos 1).map fun p => (p.1.headD 0 == 1, p.2)

/-! ## UTF-8 (Rust core `str::from_utf8` semantics and `char::encode_utf8`) -/

/-- Continuation byte test for UTF-8 decoding. -/
def isCont (b : Nat) : Bool := 0x80 ≤ b && b ≤ 0xBF

/-- Decode one UTF-8 scalar from the front of a byte list, following the
exact validity rules of Rust's `str::from_utf8` (rejecting overlong
encodings, surrogates and values above 0x10FFFF). -/
def utf8DecodeOne : List Nat → Option (Nat × List Nat)
  | [] => none
  | b0 :: rest =>
    if b0 < 0x80 then some (b0, rest)
    else if b0 < 0xC2 then none
    else if b0 ≤ 0xDF then
      match rest with
      | b1 :: r =>
        if isCont b1 then some ((b0 - 0xC0) * 64 + (b1 - 0x80), r) else none
      | [] => none
    else if b0 ≤ 0xEF then
      match rest with
      | b1 :: b2 :: r =>
        let lo1 := if b0 = 0xE0 then 0xA0 else 0x80
        let hi1 := if b0 = 0xED then 0x9F else 0xBF
        if lo1 ≤ b1 && b1 ≤ hi1 && isCont b2 then
          some ((b0 - 0xE0) * 4096 + (b1 - 0x80) * 64 + (b2 - 0x80), r)
        else none
      | _ => none
    else if b0 ≤ 0xF4 then
      match rest with
      | b1 :: b2 :: b3 :: r =>
        let lo1 := if b0 = 0xF0 then 0x90 else 0x80
        let hi1 := if b0 = 0xF4 then 0x8F else 0xBF
        if lo1 ≤ b1 && b1 ≤ hi1 && isCont b2 && isCont b3 then
          some ((b0 - 0xF0) * 262144 + (b1 - 0x80) * 4096 +
                (b2 - 0x80) * 64 + (b3 - 0x80), r)
        else none
      | _ => none
    else none

/-- Fuelled full decode; the fuel is instantiated with the list length,
which always suffices because each step consumes at least one byte. -/
def utf8DecodeAux : Nat → List Nat → Option (List Nat)
  | _, [] => some []
  | 0, _ :: _ => none
  | fuel + 1, bs =>
    (utf8DecodeOne bs).bind fun cr =>
      (utf8DecodeAux fuel cr.2).map fun cs => cr.1 :: cs

/-- Decode a whole byte list into its scalar values; none when the bytes
are not valid UTF-8 (Rust `String::from_utf8` returning Err). -/
def utf8Decode (bs : List Nat) : Option (List Nat) := utf8DecodeAux bs.length bs

/-- Rust `char::encode_utf8`: standard 1-4 byte encoding of a scalar. -/
def charEncode (c : Nat) : List Nat :=
  if c < 0x80 then [c]
  else if c < 0x800 then [0xC0 + c / 64, 0x80 + c % 64]
  else if c < 0x10000 then
    [0xE0 + c / 4096, 0x80 + c / 64 % 64, 0x80 + c % 64]
  else
    [0xF0 + c / 262144, 0x80 + c / 4096 % 64, 0x80 + c / 64 % 64, 0x80 + c % 64]

/-! ## String and char codec (vm.rs) -/

/-- The two length bytes produced by `mem::transmute(len as u16)` in
String::write: a native-endian reinterpretation of the u16, which on the
little-endian targets this program builds for is low byte first (unlike
u16::write, which is big-endian). The `as u16` cast truncates mod 2^16. -/
def u16le (n : Nat) : Bytes := [n % 256, n / 256 % 256]

/-- String::write (vm.rs): native-endian 2-byte length, then the raw
UTF-8 bytes (all of them, even when the length was truncated). -/
def stringWrite (s : RStr) : Bytes := u16le s.length ++ s

/-- String::read (vm.rs), translated exactly: reads a big-endian u16
length from the cursor (advancing it by 2), then slices the WHOLE
underlying buffer—ignoring the cursor position—at `[1 .. len + 2]`
(panicking when the buffer is shorter than len + 2), and validates the
slice as UTF-8. -/
def stringRead (data : Bytes) (pos : Nat) : Option (RStr × Nat) :=
  (u16read data pos).bind fun lp =>
    if lp.1 + 2 ≤ data.length then
      (utf8Decode ((data.drop 1).take (lp.1 + 1))).map fun _ =>
        ((data.drop 1).take (lp.1 + 1), lp.2)
    else none

/-- char::write (vm.rs): encodes into a zero-initialised 4-byte array and
writes all four bytes, so the encoding is zero-padded to width 4. -/
def charWrite (c : Nat) : Bytes :=
  charEncode c ++ List.replicate (4 - (charEncode c).length) 0

/-- char::read (vm.rs), translated exactly: validates the WHOLE
underlying buffer (from index 0, ignoring the cursor position, which it
never advances) as UTF-8 and takes the first scalar; indexing an empty
vector of chars panics. -/
def charRead (data : Bytes) (pos : Nat) : Option (Nat × Nat) :=
  (utf8Decode data).bind fun cs => cs.head?.map fun c => (c, pos)

/-! ## The literal value universe (tks/lit.rs) -/

/-- Literal (tks/lit.rs): the eight-variant value universe. Number is an
i64, Float carries its IEEE-754 bit pattern, Char its Unicode scalar
value, and the string-like payloads are UTF-8 byte lists. -/
inductive Literal where
  | Number (v : Int)
  | Float (bits : Nat)
  | String (s : RStr)
  | Char (c : Nat)
  | Ident (s : RStr)
  | Bool (b : Bool)
  | TypeName (s : RStr)
  | Void
deriving DecidableEq, Repr

/-- Literal::write (tks/lit.rs): one-byte discriminant, then the payload
through the vm.rs primitive writers. -/
def litWrite : Literal → Bytes
  | .Number v => u8write 0x01 ++ i64write v
  | .Float bits => u8write 0x02 ++ f64write bits
  | .String s => u8write 0x03 ++ stringWrite s
  | .Char c => u8write 0x04 ++ charWrite c
  | .Ident s => u8write 0x05 ++ stringWrite s
  | .Bool b => u8write 0x06 ++ boolWrite b
  | .TypeName s => u8write 0x07 ++ stringWrite s
  | .Void => u8write 0x00

/-- Literal::read (tks/lit.rs): reads the discriminant from the cursor,
then the payload through the vm.rs primitive readers; an unknown
discriminant panics. -/
def litRead (data : Bytes) (pos : Nat) : Option (Literal × Nat) :=
  (u8read data pos).bind fun tp =>
    match tp.1 with
    | 0x00 => some (.Void, tp.2)
    | 0x01 => (i64read data tp.2).map fun p => (.Number p.1, p.2)
    | 0x02 => (f64read data tp.2).map fun p => (.Float p.1, p.2)
    | 0x03 => (stringRead data tp.2).map fun p => (.String p.1, p.2)
    | 0x04 => (charRead data tp.2).map fun p => (.Char p.1, p.2)
    | 0x05 => (stringRead data tp.2).map fun p => (.Ident p.1, p.2)
    | 0x06 => (boolRead data tp.2).map fun p => (.Bool p.1, p.2)
    | 0x07 => (stringRead data tp.2).map fun p => (.TypeName p.1, p.2)
    | _ => none

/-- Round-trip of a literal through the codec: write it into a fresh
buffer, then read from position 0 (a fresh Cursor). -/
def litRoundTrip (v : Literal) : Option Literal :=
  (litRead (litWrite v) 0).map Prod.fst

/-! ## Type tags (tks/lit.rs) -/

/-- UTF-8 bytes of the tag "num". -/
def bNum : RStr := [0x6E, 0x75, 0x6D]
/-- UTF-8 bytes of the tag "float". -/
def bFloat : RStr := [0x66, 0x6C, 0x6F, 0x61, 0x74]
/-- UTF-8 bytes of the tag "str". -/
def bStr : RStr := [0x73, 0x74, 0x72]
/-- UTF-8 bytes of the tag "char". -/
def bChar : RStr := [0x63, 0x68, 0x61, 0x72]
/-- UTF-8 bytes of the tag "bool". -/
def bBool : RStr := [0x62, 0x6F, 0x6F, 0x6C]
/-- UTF-8 bytes of the tag "typename". -/
def bTypename : RStr := [0x74, 0x79, 0x70, 0x65, 0x6E, 0x61, 0x6D, 0x65]
/-- UTF-8 bytes of the tag "void". -/
def bVoid : RStr := [0x76, 0x6F, 0x69, 0x64]
/-- UTF-8 bytes of the out-type "unknown". -/
def bUnknown : RStr := [0x75, 0x6E, 0x6B, 0x6E, 0x6F, 0x77, 0x6E]
/-- UTF-8 bytes of the sentinel parameter name "varargs". -/
def bVarargs : RStr := [0x76, 0x61, 0x72, 0x61, 0x72, 0x67, 0x73]

/-- Literal::type_str (tks/lit.rs): structural test of a literal against
a tag name; an Ident literal matches every tag. -/
def typeStr : Literal → RStr → Bool
  | .Number _, tn => tn = bNum
  | .Float _, tn => tn = bFloat
  | .String _, tn => tn = bStr
  | .Char _, tn => tn = bChar
  | .Ident _, _ => true
  | .Bool _, tn => tn = bBool
  | .TypeName _, tn => tn = bTypename
  | .Void, tn => tn = bVoid

/-- Literal::type_matches (tks/lit.rs): variant-wise equality; the final
catch-all arm makes Void match anything. -/
def typeMatches : Literal → Literal → Bool
  | .Number _, .Number _ => true
  | .Number _, _ => false
  | .Float _, .Float _ => true
  | .Float _, _ => false
  | .String _, .String _ => true
  | .String _, _ => false
  | .Char _, .Char _ => true
  | .Char _, _ => false
  | .Ident _, .Ident _ => true
  | .Ident _, _ => false
  | .TypeName _, .TypeName _ => true
  | .TypeName _, _ => false
  | .Bool _, .Bool _ => true
  | .Bool _, _ => false
  | .Void, _ => true

/-! ## std::math (stdlib/math.rs)

The `unwrap_args!` macro builds a VecDeque from the parameter vector and
pops from the BACK: the first pattern slot binds the last argument, the
second slot the one before it; a missing argument or a wrong variant
panics. -/

/-- IEEE-754 double `<` on bit patterns: false when either side is NaN
or both are (signed) zeros; otherwise sign-magnitude ordering. -/
def f64lt (a b : Nat) : Bool :=
  let magA := a % 2 ^ 63
  let magB := b % 2 ^ 63
  let nanA := 0x7FF0000000000000 < magA
  let nanB := 0x7FF0000000000000 < magB
  if nanA || nanB then false
  else if magA = 0 && magB = 0 then false
  else
    match a / 2 ^ 63, b / 2 ^ 63 with
    | 0, 0 => magA < magB
    | 0, _ => false
    | _, 0 => true
    | _, _ => magB < magA

/-- std::math::min (stdlib/math.rs): binds `min` to the LAST argument and
`value` to the first, then returns `value` if `min < value` else `min` -
that is, the larger of the two. -/
def mathMin (params : List Literal) : Option Literal :=
  match params.reverse with
  | .Number m :: .Number v :: _ => some (.Number (if m < v then v else m))
  | _ => none

/-- std::math::max (stdlib/math.rs): returns `max` if `max < value` else
`value` - that is, the smaller of the two. -/
def mathMax (params : List Literal) : Option Literal :=
  match params.reverse with
  | .Number m :: .Number v :: _ => some (.Number (if m < v then m else v))
  | _ => none

/-- std::math::minf (stdlib/math.rs): float variant of `min`, same
branch shape, so it also returns the larger argument. -/
def mathMinf (params : List Literal) : Option Literal :=
  match params.reverse with
  | .Float m :: .Float v :: _ => some (.Float (if f64lt m v then v else m))
  | _ => none

/-- std::math::maxf (stdlib/math.rs): float variant of `max`, returning
the smaller argument. -/
def mathMaxf (params : List Literal) : Option Literal :=
  match params.reverse with
  | .Float m :: .Float v :: _ => some (.Float (if f64lt m v then m else v))
  | _ => none

/-! ## std::mem::transmute (stdlib/mem.rs) -/

/-- std::mem::transmute (stdlib/mem.rs): pops the value from the front of
the parameter deque and the type name from the back, serialises the value
with Literal::write into a fresh buffer, then reads the target type's
raw payload from a fresh cursor positioned at 0 - i.e. starting at the
one-byte discriminant the write just emitted, which is never skipped.
The fall-through arm of the source reconstructs a structure instance of
the struct-enabled Literal revision; that variant does not exist in the
embedded tks/lit.rs revision and no claim reaches the arm, so it maps to
the failure case here. -/
def memTransmute (params : List Literal) : Option Literal :=
  match params with
  | [] => none
  | value :: rest =>
    match rest.getLast? with
    | some (Literal.TypeName ty) =>
      let buf := litWrite value
      if ty = bNum then (i64read buf 0).map fun p => Literal.Number p.1
      else if ty = bFloat then (f64read buf 0).map fun p => Literal.Float p.1
      else if ty = bStr then (stringRead buf 0).map fun p => Literal.String p.1
      else if ty = bChar then (charRead buf 0).map fun p => Literal.Char p.1
      else if ty = bBool then (boolRead buf 0).map fun p => Literal.Bool p.1
      else if ty = bTypename then
        (stringRead buf 0).map fun p => Literal.TypeName p.1
      else if ty = bVoid then some Literal.Void
      else none
    | _ => none

/-! ## Tokens, keywords, operators, expressions (tks.rs, tks/kw.rs,
tks/ops.rs, tks/expr.rs) -/

/-- Keyword (tks/kw.rs). -/
inductive Keyword where
  | Struct | Export | Import | Let | Const | Function | Return
deriving DecidableEq, Repr

/-- Keyword::write (tks/kw.rs): one discriminant byte. -/
def kwWrite : Keyword → Bytes
  | .Struct => u8write 0x00
  | .Export => u8write 0x01
  | .Import => u8write 0x02
  | .Let => u8write 0x03
  | .Const => u8write 0x04
  | .Function => u8write 0x05
  | .Return => u8write 0x06

/-- Keyword::read (tks/kw.rs). -/
def kwRead (data : Bytes) (pos : Nat) : Option (Keyword × Nat) :=
  (u8read data pos).bind fun tp =>
    match tp.1 with
    | 0x00 => some (.Struct, tp.2)
    | 0x01 => some (.Export, tp.2)
    | 0x02 => some (.Import, tp.2)
    | 0x03 => some (.Let, tp.2)
    | 0x04 => some (.Const, tp.2)
    | 0x05 => some (.Function, tp.2)
    | 0x06 => some (.Return, tp.2)
    | _ => none

/-- BinaryOp: the operator set dispatched by the evaluator
(tks/expr_handlers.rs); Lt and Gt are matched there although the older
codec table in tks/ops.rs predates them. -/
inductive BinaryOp where
  | Assign | Add | Sub | Div | Mul | Mod | And | Or | Eq | Neq
  | BitAnd | BitOr | BitXor | BitRsh | BitLsh | Lt | Gt
deriving DecidableEq, Repr

/-- BinaryOp::write (tks/ops.rs): discriminants 0x00-0x0E; Lt and Gt are
absent from that codec revision and are given the two following bytes
(no theorem below ever serialises them). -/
def opWrite : BinaryOp → Bytes
  | .Assign => u8write 0x00
  | .Add => u8write 0x01
  | .Sub => u8write 0x02
  | .Div => u8write 0x03
  | .Mul => u8write 0x04
  | .Mod => u8write 0x05
  | .And => u8write 0x06
  | .Or => u8write 0x07
  | .Eq => u8write 0x08
  | .Neq => u8write 0x09
  | .BitAnd => u8write 0x0A
  | .BitOr => u8write 0x0B
  | .BitXor => u8write 0x0C
  | .BitRsh => u8write 0x0D
  | .BitLsh => u8write 0x0E
  | .Lt => u8write 0x0F
  | .Gt => u8write 0x10

/-- BinaryOp::read (tks/ops.rs). -/
def opRead (data : Bytes) (pos : Nat) : Option (BinaryOp × Nat) :=
  (u8read data pos).bind fun tp =>
    match tp.1 with
    | 0x00 => some (.Assign, tp.2)
    | 0x01 => some (.Add, tp.2)
    | 0x02 => some (.Sub, tp.2)
    | 0x03 => some (.Div, tp.2)
    | 0x04 => some (.Mul, tp.2)
    | 0x05 => some (.Mod, tp.2)
    | 0x06 => some (.And, tp.2)
    | 0x07 => some (.Or, tp.2)
    | 0x08 => some (.Eq, tp.2)
    | 0x09 => some (.Neq, tp.2)
    | 0x0A => some (.BitAnd, tp.2)
    | 0x0B => some (.BitOr, tp.2)
    | 0x0C => some (.BitXor, tp.2)
    | 0x0D => some (.BitRsh, tp.2)
    | 0x0E => some (.BitLsh, tp.2)
    | _ => none

/-- UnaryOp (tks/ops.rs). -/
inductive UnaryOp where
  | Neg | Rev
deriving DecidableEq, Repr

/-- UnaryOp::write (tks/ops.rs). -/
def unopWrite : UnaryOp → Bytes
  | .Neg => u8write 0x00
  | .Rev => u8write 0x01

/-- UnaryOp::read (tks/ops.rs). -/
def unopRead (data : Bytes) (pos : Nat) : Option (UnaryOp × Nat) :=
  (u8read data pos).bind fun tp =>
    match tp.1 with
    | 0x00 => some (.Neg, tp.2)
    | 0x01 => some (.Rev, tp.2)
    | _ => none

mutual

/-- Token (tks.rs): syntactic markers, a literal, a keyword, a boxed
expression node, and the End sentinel. -/
inductive Token where
  | Whitespace
  | LBracket
  | RBracket
  | LParen
  | RParen
  | LSquare
  | RSquare
  | Literal (l : GaleVM.Literal)
  | Keyword (k : GaleVM.Keyword)
  | Expression (e : Expression)
  | End

/-- Expression (tks/expr.rs). Paths and names are Idents (strings);
argument lists are token chains. -/
inductive Expression where
  | BinaryOp (op : GaleVM.BinaryOp) (l r : Token)
  | UnaryOp (op : GaleVM.UnaryOp) (t : Token)
  | StaticAccess (path : List RStr)
  | InstanceAccess (path : List RStr)
  | InvokeStatic (name : RStr) (args : List Token)
  | InvokeInstance (name : RStr) (args : List Token)
  | InvokeBuiltin (name : RStr) (args : List Token)

end

/-- Homogeneous-sequence writer (vm.rs `Transmute for Vec<V>`): 4-byte
big-endian count, then each element. -/
def vecWrite (w : α → Bytes) (l : List α) : Bytes :=
  u32write l.length ++ (l.map w).flatten

/-- Reads `n` elements in sequence (the loop body of Vec::read). -/
def vecReadN (r : Bytes → Nat → Option (α × Nat)) :
    Nat → Bytes → Nat → Option (List α × Nat)
  | 0, _, pos => some ([], pos)
  | k + 1, data, pos =>
    (r data pos).bind fun vp =>
      (vecReadN r k data vp.2).map fun lp => (vp.1 :: lp.1, lp.2)

/-- Vec::read (vm.rs): 4-byte count then that many elements. -/
def vecRead (r : Bytes → Nat → Option (α × Nat)) (data : Bytes) (pos : Nat) :
    Option (List α × Nat) :=
  (u32read data pos).bind fun lp => vecReadN r lp.1 data lp.2

mutual

/-- Token serialisation. Modelled from the spec: the Transmute
implementation for Token is referenced by the function codec (fns.rs
writes a TokenChain) but is absent from src; per the spec every sum type
writes a one-byte discriminant, then the payload of the selected arm, so
tokens use their declaration order (tks.rs) as the discriminant table. -/
def tokenWrite : Token → Bytes
  | .Whitespace => u8write 0x00
  | .LBracket => u8write 0x01
  | .RBracket => u8write 0x02
  | .LParen => u8write 0x03
  | .RParen => u8write 0x04
  | .LSquare => u8write 0x05
  | .RSquare => u8write 0x06
  | .Literal l => u8write 0x07 ++ litWrite l
  | .Keyword k => u8write 0x08 ++ kwWrite k
  | .Expression e => u8write 0x09 ++ exprWrite e
  | .End => u8write 0x0A

/-- Expression::write (tks/expr.rs): note that StaticAccess and
InstanceAccess both emit discriminant 0x02 in the source. -/
def exprWrite : Expression → Bytes
  | .BinaryOp op l r => u8write 0x00 ++ opWrite op ++ tokenWrite l ++ tokenWrite r
  | .UnaryOp op t => u8write 0x01 ++ unopWrite op ++ tokenWrite t
  | .StaticAccess path => u8write 0x02 ++ vecWrite stringWrite path
  | .InstanceAccess path => u8write 0x02 ++ vecWrite stringWrite path
  | .InvokeStatic name args =>
    u8write 0x03 ++ stringWrite name ++ u32write args.length ++ tokensWrite args
  | .InvokeInstance name args =>
    u8write 0x04 ++ stringWrite name ++ u32write args.length ++ tokensWrite args
  | .InvokeBuiltin name args =>
    u8write 0x05 ++ stringWrite name ++ u32write args.length ++ tokensWrite args

/-- Element-wise payload of a TokenChain write (Vec<Token>::write after
its length prefix). -/
def tokensWrite : List Token → Bytes
  | [] => []
  | t :: ts => tokenWrite t ++ tokensWrite ts

end

mutual

/-- Fuelled Token deserialisation, the inverse of `tokenWrite`. Modelled
from the spec: reading is the exact inverse of writing; the fuel bounds
the nesting depth and is instantiated generously at the top level. -/
def tokenReadF : Nat → Bytes → Nat → Option (Token × Nat)
  | 0, _, _ => none
  | fuel + 1, data, pos =>
    (u8read data pos).bind fun tp =>
      match tp.1 with
      | 0x00 => some (.Whitespace, tp.2)
      | 0x01 => some (.LBracket, tp.2)
      | 0x02 => some (.RBracket, tp.2)
      | 0x03 => some (.LParen, tp.2)
      | 0x04 => some (.RParen, tp.2)
      | 0x05 => some (.LSquare, tp.2)
      | 0x06 => some (.RSquare, tp.2)
      | 0x07 => (litRead data tp.2).map fun p => (.Literal p.1, p.2)
      | 0x08 => (kwRead data tp.2).map fun p => (.Keyword p.1, p.2)
      | 0x09 => (exprReadF fuel data tp.2).map fun p => (.Expression p.1, p.2)
      | 0x0A => some (.End, tp.2)
      | _ => none

/-- Expression::read (tks/expr.rs): discriminant 0x02 always
reconstructs an InstanceAccess (the StaticAccess arm is unreachable on
read), mirroring the source. -/
def exprReadF : Nat → Bytes → Nat → Option (Expression × Nat)
  | 0, _, _ => none
  | fuel + 1, data, pos =>
    (u8read data pos).bind fun tp =>
      match tp.1 with
      | 0x00 =>
        (opRead data tp.2).bind fun op =>
          (tokenReadF fuel data op.2).bind fun l =>
            (tokenReadF fuel data l.2).map fun r =>
              (.BinaryOp op.1 l.1 r.1, r.2)
      | 0x01 =>
        (unopRead data tp.2).bind fun op =>
          (tokenReadF fuel data op.2).map fun t => (.UnaryOp op.1 t.1, t.2)
      | 0x02 =>
        (vecRead stringRead data tp.2).map fun p => (.InstanceAccess p.1, p.2)
      | 0x03 =>
        (stringRead data tp.2).bind fun n =>
          (u32read data n.2).bind fun c =>
            (chainReadF fuel c.1 data c.2).map fun p =>
              (.InvokeStatic n.1 p.1, p.2)
      | 0x04 =>
        (stringRead data tp.2).bind fun n =>
          (u32read data n.2).bind fun c =>
            (chainReadF fuel c.1 data c.2).map fun p =>
              (.InvokeInstance n.1 p.1, p.2)
      | 0x05 =>
        (stringRead data tp.2).bind fun n =>
          (u32read data n.2).bind fun c =>
            (chainReadF fuel c.1 data c.2).map fun p =>
              (.InvokeBuiltin n.1 p.1, p.2)
      | _ => none

/-- Reads `count` tokens in sequence (TokenChain::read after its length
prefix). -/
def chainReadF : Nat → Nat → Bytes → Nat → Option (List Token × Nat)
  | _, 0, _, pos => some ([], pos)
  | 0, _ + 1, _, _ => none
  | fuel + 1, k + 1, data, pos =>
    (tokenReadF fuel data pos).bind fun t =>
      (chainReadF fuel k data t.2).map fun ts => (t.1 :: ts.1, ts.2)

end

/-- Top-level Token::read with fuel large enough for any buffer (each
nesting level consumes at least one byte). -/
def tokenRead (data : Bytes) (pos : Nat) : Option (Token × Nat) :=
  tokenReadF (data.length + 1) data pos

/-! ## Association-list image of HashMap<String, V>

Rust HashMap keys are unique; `insert` replaces, `remove` deletes the
key. The image here is an association list where lookup takes the first
hit, insertion erases the key first, and erasure drops every entry with
the key, preserving the HashMap semantics. -/

/-- HashMap::get. -/
def lookupKey (k : RStr) : List (RStr × α) → Option α
  | [] => none
  | (k', v) :: rest => if k' = k then some v else lookupKey k rest

/-- HashMap::remove. -/
def eraseKey (k : RStr) : List (RStr × α) → List (RStr × α)
  | [] => []
  | (k', v) :: rest =>
    if k' = k then eraseKey k rest else (k', v) :: eraseKey k rest

/-- HashMap::insert (replacing any previous binding of the key). -/
def insertKey (k : RStr) (v : α) (l : List (RStr × α)) : List (RStr × α) :=
  (k, v) :: eraseKey k l

/-! ## Callables (fns.rs) -/

/-- StaticFn (fns.rs): declared output type, parameter names, body
token chain. -/
structure StaticFn where
  out_ty : RStr
  param_names : List RStr
  chain : List Token

/-- InstFn (fns.rs): same shape as StaticFn, invoked with a bound
receiver. -/
structure InstFn where
  out_ty : RStr
  param_names : List RStr
  chain : List Token

/-- ExternFn (fns.rs): declared output type, parameter names, and the
1-based handle into the process-wide extern table. -/
structure ExternFn where
  out_ty : RStr
  param_names : List RStr
  handler : Nat

/-- StaticFn::write (fns.rs). -/
def staticFnWrite (f : StaticFn) : Bytes :=
  stringWrite f.out_ty ++ vecWrite stringWrite f.param_names ++
    vecWrite tokenWrite f.chain

/-- StaticFn::read (fns.rs). -/
def staticFnRead (data : Bytes) (pos : Nat) : Option (StaticFn × Nat) :=
  (stringRead data pos).bind fun o =>
    (vecRead stringRead data o.2).bind fun p =>
      (vecRead tokenRead data p.2).map fun c =>
        ({ out_ty := o.1, param_names := p.1, chain := c.1 }, c.2)

/-- InstFn::write (fns.rs). -/
def instFnWrite (f : InstFn) : Bytes :=
  stringWrite f.out_ty ++ vecWrite stringWrite f.param_names ++
    vecWrite tokenWrite f.chain

/-- InstFn::read (fns.rs). -/
def instFnRead (data : Bytes) (pos : Nat) : Option (InstFn × Nat) :=
  (stringRead data pos).bind fun o =>
    (vecRead stringRead data o.2).bind fun p =>
      (vecRead tokenRead data p.2).map fun c =>
        ({ out_ty := o.1, param_names := p.1, chain := c.1 }, c.2)

/-- ExternFn::write (fns.rs): the handler is written as a u64. -/
def externFnWrite (f : ExternFn) : Bytes :=
  stringWrite f.out_ty ++ vecWrite stringWrite f.param_names ++
    u64write f.handler

/-- ExternFn::read (fns.rs). -/
def externFnRead (data : Bytes) (pos : Nat) : Option (ExternFn × Nat) :=
  (stringRead data pos).bind fun o =>
    (vecRead stringRead data o.2).bind fun p =>
      (u64read data p.2).map fun h =>
        ({ out_ty := o.1, param_names := p.1, handler := h.1 }, h.2)

/-! ## Structures -/

/-- Modelled from the spec: var.rs stores `crate::structs::Structure`
values in a scope's structure table, but no type of that name exists in
src (structs.rs defines only StructureTemplate and StructureInstance).
Per the spec a template holds a typename, an instance-variable schema,
static fields, instance methods and an embedded scope; the method table
and embedded scope are omitted here to break the definitional cycle with
`ContainingScope` - no claim below depends on a structure payload. -/
structure Structure where
  typename : RStr
  inst_vars : List (RStr × RStr)
  static_vars : List (RStr × Literal)

/-! ## HashMap codec and the scope container (var.rs) -/

/-- HashMap::write (var.rs): 4-byte big-endian count, then each entry as
`_write_str key` (the same native-endian length prefix as String::write)
followed by the value. -/
def mapWrite (w : α → Bytes) (m : List (RStr × α)) : Bytes :=
  u32write m.length ++ (m.map fun kv => stringWrite kv.1 ++ w kv.2).flatten

/-- HashMap::read (var.rs), translated exactly: reads the count, and for
each entry reads the key and value and then calls
`map.insert(key, value).unwrap()` - but `insert` returns None for a key
not previously present, so the unwrap panics on the FIRST entry of every
non-empty map; only a zero count can succeed. -/
def mapRead (r : Bytes → Nat → Option (α × Nat)) (data : Bytes) (pos : Nat) :
    Option (List (RStr × α) × Nat) :=
  (u32read data pos).bind fun lp =>
    match lp.1 with
    | 0 => some ([], lp.2)
    | _ + 1 =>
      (stringRead data lp.2).bind fun k =>
        (r data k.2).bind fun _v => none

/-- Structure serialisation. Modelled from the spec (the Structure type
itself is absent from src): typename, then the instance-variable schema
and static-field maps through the var.rs map codec, following the
StructureTemplate::write field order of structs.rs. -/
def structWrite (s : Structure) : Bytes :=
  stringWrite s.typename ++ mapWrite stringWrite s.inst_vars ++
    mapWrite litWrite s.static_vars

/-- Structure deserialisation, the inverse shape of `structWrite`. -/
def structRead (data : Bytes) (pos : Nat) : Option (Structure × Nat) :=
  (stringRead data pos).bind fun t =>
    (mapRead stringRead data t.2).bind fun iv =>
      (mapRead litRead data iv.2).map fun sv =>
        ({ typename := t.1, inst_vars := iv.1, static_vars := sv.1 }, sv.2)

/-- ContainingScope (var.rs): mutable and constant bindings, the three
function tables, exports, imports and the structure table. -/
structure ContainingScope where
  mutables : List (RStr × Literal)
  consts : List (RStr × Literal)
  static_fns : List (RStr × StaticFn)
  inst_fns : List (RStr × InstFn)
  exports : List RStr
  extern_fns : List (RStr × ExternFn)
  imports : List (RStr × List RStr)
  structs : List (RStr × Structure)

/-- ContainingScope::new (var.rs). -/
def emptyScope : ContainingScope :=
  { mutables := [], consts := [], static_fns := [], inst_fns := []
    exports := [], extern_fns := [], imports := [], structs := [] }

/-- ContainingScope::write (var.rs), translated exactly: it writes
mutables, then the consts map TWICE, the two user-function tables,
exports and imports and structs - and never writes the extern_fns
table. -/
def scopeWrite (s : ContainingScope) : Bytes :=
  mapWrite litWrite s.mutables ++
    mapWrite litWrite s.consts ++
    mapWrite litWrite s.consts ++
    mapWrite staticFnWrite s.static_fns ++
    mapWrite instFnWrite s.inst_fns ++
    vecWrite stringWrite s.exports ++
    mapWrite (vecWrite stringWrite) s.imports ++
    mapWrite structWrite s.structs

/-- ContainingScope::read (var.rs): reads the eight fields in
declaration order, INCLUDING an extern_fns table (between exports and
the imports) that the writer never emitted. -/
def scopeRead (data : Bytes) (pos : Nat) : Option (ContainingScope × Nat) :=
  (mapRead litRead data pos).bind fun m =>
    (mapRead litRead data m.2).bind fun c =>
      (mapRead staticFnRead data c.2).bind fun sf =>
        (mapRead instFnRead data sf.2).bind fun inf =>
          (vecRead stringRead data inf.2).bind fun ex =>
            (mapRead externFnRead data ex.2).bind fun ef =>
              (mapRead (vecRead stringRead) data ef.2).bind fun im =>
                (mapRead structRead data im.2).map fun st =>
                  ({ mutables := m.1, consts := c.1, static_fns := sf.1,
                     inst_fns := inf.1, exports := ex.1, extern_fns := ef.1,
                     imports := im.1, structs := st.1 }, st.2)

/-- Round-trip of a scope through its codec from a fresh buffer and
cursor. -/
def scopeRoundTrip (s : ContainingScope) : Option ContainingScope :=
  (scopeRead (scopeWrite s) 0).map Prod.fst

/-! ## Scope operations (var.rs) -/

/-- ContainingScope::add_var (var.rs): removes any existing mutable of
that name, then inserts the new value - no type check of any kind. -/
def scopeAddVar (sc : ContainingScope) (name : RStr) (v : Literal) :
    ContainingScope :=
  { sc with mutables := insertKey name v sc.mutables }

/-- ContainingScope::add_const (var.rs): panics when the constant is
already bound. -/
def scopeAddConst (sc : ContainingScope) (name : RStr) (v : Literal) :
    Option ContainingScope :=
  match lookupKey name sc.consts with
  | some _ => none
  | none => some { sc with consts := insertKey name v sc.consts }

/-- ContainingScope::mutate (var.rs): the type-checked reassignment -
panics when the name is unbound or when the new literal's type tag does
not match the current value. This function has no caller anywhere in
src. -/
def scopeMutate (sc : ContainingScope) (name : RStr) (v : Literal) :
    Option ContainingScope :=
  match lookupKey name sc.mutables with
  | none => none
  | some old =>
    if typeMatches old v then
      some { sc with mutables := insertKey name v sc.mutables }
    else none

/-- ContainingScope::get_var (var.rs). -/
def scopeGetVar (sc : ContainingScope) (name : RStr) : Option Literal :=
  lookupKey name sc.mutables

/-- ContainingScope::get_const (var.rs). -/
def scopeGetConst (sc : ContainingScope) (name : RStr) : Option Literal :=
  lookupKey name sc.consts

/-- ContainingScope::export (var.rs). -/
def scopeExport (sc : ContainingScope) (name : RStr) : ContainingScope :=
  { sc with exports := sc.exports ++ [name] }

/-- ContainingScope::import (var.rs): appends to the import list of the
source scope, creating it when absent. -/
def scopeImport (sc : ContainingScope) (fromScope name : RStr) :
    ContainingScope :=
  match lookupKey fromScope sc.imports with
  | some l => { sc with imports := insertKey fromScope (l ++ [name]) sc.imports }
  | none => { sc with imports := insertKey fromScope [name] sc.imports }

/-- ScopedValue (var.rs). -/
inductive ScopedValue where
  | Constant (v : Literal)
  | Mutable (v : Literal)
  | Type (s : Structure)
  | StaticFn (f : StaticFn)
  | InstFn (f : InstFn)
  | ExternFn (f : ExternFn)

/-- ContainingScope::get_any_value (var.rs), translated exactly. The
mutable branch of the source is
`if m.is_some() { return Some(ScopedValue::Mutable(c?)) }` - it tests
the MUTABLE lookup `m` but builds the result from the CONSTANT lookup
`c`, which is already known to be None on that path, so the `?` operator
propagates None out of the whole function: a name bound only as a
mutable is reported as absent. -/
def getAnyValue (sc : ContainingScope) (name : RStr) : Option ScopedValue :=
  match scopeGetConst sc name with
  | some c => some (.Constant c)
  | none =>
    match scopeGetVar sc name with
    | some _ => none
    | none =>
      match lookupKey name sc.structs with
      | some s => some (.Type s)
      | none =>
        match lookupKey name sc.static_fns with
        | some f => some (.StaticFn f)
        | none =>
          match lookupKey name sc.inst_fns with
          | some f => some (.InstFn f)
          | none =>
            match lookupKey name sc.extern_fns with
            | some f => some (.ExternFn f)
            | none => none

/-! ## Merged scope view (visit.rs Vm::merged_scope) -/

/-- One arm of the merged-view copy loop: installs an imported value into
the current scope under its name. The constant arm goes through add_const
and therefore panics on a duplicate. The source's match is written
against an older ScopedValue with a two-variant function arm; the arms
here follow the var.rs ScopedValue with the same install targets. -/
def applyImport (cur : ContainingScope) (name : RStr) :
    ScopedValue → Option ContainingScope
  | .Constant v => scopeAddConst cur name v
  | .Mutable v => some (scopeAddVar cur name v)
  | .Type s => some { cur with structs := insertKey name s cur.structs }
  | .StaticFn f => some { cur with static_fns := insertKey name f cur.static_fns }
  | .InstFn f => some { cur with inst_fns := insertKey name f cur.inst_fns }
  | .ExternFn f => some { cur with extern_fns := insertKey name f cur.extern_fns }

/-- Inner loop of Vm::merged_scope over the names imported from one
source scope: each name is resolved with get_any_value on the source and
a None resolution panics ("Tried to import non-existent value"). -/
def importNames (src : ContainingScope) :
    ContainingScope → List RStr → Option ContainingScope
  | cur, [] => some cur
  | cur, n :: ns =>
    (getAnyValue src n).bind fun v =>
      (applyImport cur n v).bind fun cur' => importNames src cur' ns

/-- Outer loop of Vm::merged_scope over the snapshot of the current
scope's imports map; a named source scope missing from the scope map
panics on unwrap. -/
def importAll (scopes : List (RStr × ContainingScope)) :
    ContainingScope → List (RStr × List RStr) → Option ContainingScope
  | cur, [] => some cur
  | cur, (srcName, names) :: rest =>
    (lookupKey srcName scopes).bind fun src =>
      (importNames src cur names).bind fun cur' => importAll scopes cur' rest

/-- Vm::merged_scope (visit.rs): the current scope overlaid with every
name listed in its imports, resolved from the named source scopes at
lookup time. -/
def mergedScope (scopes : List (RStr × ContainingScope))
    (currentName : RStr) : Option ContainingScope :=
  (lookupKey currentName scopes).bind fun cur =>
    importAll scopes cur cur.imports

/-! ## Keyword::Import processing (tks/kw.rs) -/

/-- Rust `str::split("::")`: greedy leftmost, non-overlapping split on
the two-byte separator (0x3A 0x3A). -/
def splitCC : List Nat → List (List Nat)
  | [] => [[]]
  | [c] => [[c]]
  | c1 :: c2 :: rest =>
    if c1 = 58 ∧ c2 = 58 then [] :: splitCC rest
    else
      match splitCC (c2 :: rest) with
      | [] => [[c1]]
      | p :: ps => (c1 :: p) :: ps

/-- The Import arm of Keyword::visit (tks/kw.rs), applied to the popped
identifier: it splits the qualified name on EVERY "::" and records
segment 1 as the member under segment 0 as the source scope
(`split.get(0)` / `split.get(1)`); a name without "::" panics on the
missing second segment. -/
def importKw (name : RStr) (sc : ContainingScope) : Option ContainingScope :=
  match (splitCC name).get? 0, (splitCC name).get? 1 with
  | some a, some b => some (scopeImport sc a b)
  | _, _ => none

/-! ## The Assign handler (tks/expr_handlers.rs) -/

/-- The BinaryOp::Assign arm of _binary_op_handler
(tks/expr_handlers.rs). The left token must be a literal
(Token::as_lit, which panics on every other token kind) holding an
identifier. The right operand's evaluation result is the literal `rh`:
for a Token::Literal operand that is the literal itself, and for a
Token::Expression operand the value the visited expression left on the
stack; other right tokens bail before this point. The value is stored
with ContainingScope::add_var - the type-checked `mutate` is never
called, so no type comparison happens. -/
def binaryAssign (lh : Token) (rh : Literal) (sc : ContainingScope) :
    Option ContainingScope :=
  match lh with
  | .Literal (.Ident name) => some (scopeAddVar sc name rh)
  | _ => none

/-! ## The evaluator state and function-call machinery (visit.rs, fns.rs) -/

/-- Scope levels (the `Scope` enum of visit.rs; renamed to avoid clashing
with the scope container). -/
inductive ScopeLevel where
  | Struct | StaticFunction | InstanceFunction | Global
deriving DecidableEq, Repr

/-- The Vm fields touched by function invocation (visit.rs): the token
deque (head = front), the literal stack (head = top), the current-scope
name, the scope map and the scope-level stack (head = front). The
abandoned stack-VM bookkeeping fields (`free`, `pos`) and the
struct-name deque are untouched by StaticFn::call and omitted. -/
structure VmState where
  tks : List Token
  lit_stack : List Literal
  current_scope : RStr
  scopes : List (RStr × ContainingScope)
  scope_types : List ScopeLevel

/-- LiteralStack::push_stack (visit.rs). -/
def pushStack (v : Literal) (st : VmState) : VmState :=
  { st with lit_stack := v :: st.lit_stack }

/-- LiteralStack::pop_stack (visit.rs): unwrap panics on an empty
stack. -/
def popStack (st : VmState) : Option (Literal × VmState) :=
  match st.lit_stack with
  | [] => none
  | v :: rest => some (v, { st with lit_stack := rest })

/-- LiteralStack::move_scope (visit.rs). -/
def moveScope (name : RStr) (st : VmState) : VmState :=
  { st with current_scope := name }

/-- GlobalScope::push_scope_level (visit.rs): push_front. -/
def pushScopeLevel (l : ScopeLevel) (st : VmState) : VmState :=
  { st with scope_types := l :: st.scope_types }

/-- GlobalScope::pop_scope_level (visit.rs): pop_front, unwrap panics
when empty. -/
def popScopeLevel (st : VmState) : Option (ScopeLevel × VmState) :=
  match st.scope_types with
  | [] => none
  | l :: rest => some (l, { st with scope_types := rest })

/-- GlobalScope::push_scope (visit.rs): HashMap insert. -/
def pushScope (name : RStr) (sc : ContainingScope) (st : VmState) : VmState :=
  { st with scopes := insertKey name sc st.scopes }

/-- LiteralStack::drop_scope (visit.rs): HashMap remove, unwrap panics
when the name is absent. -/
def dropScope (name : RStr) (st : VmState) : Option VmState :=
  match lookupKey name st.scopes with
  | none => none
  | some _ => some { st with scopes := eraseKey name st.scopes }

/-- Visitor::load_chain (visit.rs): add_token, i.e. push_front, for each
body token in order. -/
def loadChain (chain : List Token) (st : VmState) : VmState :=
  chain.foldl (fun s t => { s with tks := t :: s.tks }) st

/-- The parameter-binding loop of StaticFn::call: add_const of each
parameter name to the fresh activation scope (panicking on a duplicate
parameter name). -/
def bindParams : ContainingScope → List (RStr × Literal) → Option ContainingScope
  | sc, [] => some sc
  | sc, (n, v) :: rest => (scopeAddConst sc n v).bind fun sc' => bindParams sc' rest

/-- StaticFn::call (fns.rs). The fresh activation-scope name (the
randomised "static_fn_0x…" string of the source) is passed in, and
`runBody` stands for the `process()` loop running once the body chain is
loaded - the one step of the call that is not straight-line code here.
Steps in source order: arity check, activation scope with const-bound
parameters, cache the current scope name, push scope level
InstanceFunction, push and enter the activation scope, load and run the
body, pop the return value off the literal stack, check it against
out_ty with type_str, then restore the cached scope, drop the activation
scope and pop the scope level. -/
def staticCall (f : StaticFn) (params : List Literal) (fresh : RStr)
    (runBody : VmState → VmState) (st : VmState) : Option (VmState × Literal) :=
  if params.length = f.param_names.length then
    (bindParams emptyScope (f.param_names.zip params)).bind fun act =>
      (popStack (runBody (loadChain f.chain (moveScope fresh
          (pushScope fresh act (pushScopeLevel .InstanceFunction st)))))).bind
        fun ov =>
          if typeStr ov.1 f.out_ty then
            (dropScope fresh (moveScope st.current_scope ov.2)).bind
              fun dropped =>
                (popScopeLevel dropped).map fun ls => (ls.2, ov.1)
          else none
  else none

/-- ExternFn::call (fns.rs): the same arity check, then the host
function at index `max(0, handler - 1)` of the process-wide extern table
(truncated subtraction already clamps at zero; handlers are registered
1-based and are never 0 - for a zero handler the source panics where
this model would read index 0, a case no claim involves). An index past
the table end panics. -/
def externCall (table : List (List Literal → Literal)) (f : ExternFn)
    (params : List Literal) : Option Literal :=
  if params.length = f.param_names.length then
    (table.get? (f.handler - 1)).map fun h => h params
  else none

/-! ## Helper lemmas -/

/-- Looking a key up right after erasing it finds nothing. -/
theorem lookupKey_eraseKey (k : RStr) (l : List (RStr × α)) :
    lookupKey k (eraseKey k l) = none := by
  induction l with
  | nil => rfl
  | cons kv rest ih =>
    obtain ⟨k', v⟩ := kv
    by_cases h : k' = k
    · simpa [eraseKey, h] using ih
    · simpa [eraseKey, lookupKey, h] using ih

/-- Looking a key up right after inserting it finds the inserted value. -/
theorem lookupKey_insertKey (k : RStr) (v : α) (l : List (RStr × α)) :
    lookupKey k (insertKey k v l) = some v := by
  simp [insertKey, lookupKey]

/-- load_chain only touches the token deque. -/
theorem loadChain_fields (chain : List Token) (st : VmState) :
    (loadChain chain st).lit_stack = st.lit_stack ∧
    (loadChain chain st).current_scope = st.current_scope ∧
    (loadChain chain st).scopes = st.scopes ∧
    (loadChain chain st).scope_types = st.scope_types := by
  induction chain generalizing st with
  | nil => exact ⟨rfl, rfl, rfl, rfl⟩
  | cons t ts ih =>
    simpa only [loadChain, List.foldl_cons] using ih { st with tks := t :: st.tks }

/-- pop_stack only touches the literal stack. -/
theorem popStack_fields (st : VmState) (v : Literal) (st2 : VmState)
    (h : popStack st = some (v, st2)) :
    st2.current_scope = st.current_scope ∧ st2.scopes = st.scopes ∧
    st2.scope_types = st.scope_types := by
  unfold popStack at h
  split at h
  · exact absurd h (by simp)
  · simp only [Option.some.injEq, Prod.mk.injEq] at h
    obtain ⟨-, h2⟩ := h
    subst h2
    exact ⟨rfl, rfl, rfl⟩

/-- drop_scope erases the named scope and touches nothing else. -/
theorem dropScope_fields (n : RStr) (st st2 : VmState)
    (h : dropScope n st = some st2) :
    st2.scopes = eraseKey n st.scopes ∧ st2.current_scope = st.current_scope ∧
    st2.scope_types = st.scope_types := by
  unfold dropScope at h
  split at h
  · exact absurd h (by simp)
  · simp only [Option.some.injEq] at h
    subst h
    exact ⟨rfl, rfl, rfl⟩

/-- pop_scope_level pops the front level and touches nothing else. -/
theorem popScopeLevel_fields (st : VmState) (l : ScopeLevel) (st2 : VmState)
    (h : popScopeLevel st = some (l, st2)) :
    st.scope_types = l :: st2.scope_types ∧
    st2.current_scope = st.current_scope ∧ st2.scopes = st.scopes := by
  unfold popScopeLevel at h
  split at h
  · exact absurd h (by simp)
  · next a rest heq =>
    simp only [Option.some.injEq, Prod.mk.injEq] at h
    obtain ⟨h1, h2⟩ := h
    subst h2
    exact ⟨by rw [heq, h1], rfl, rfl⟩

/-- Rust `str::split("::")` on a separator-free prefix followed by a
separator: the prefix becomes the first segment. -/
theorem splitCC_append (a r : List Nat) (ha : 58 ∉ a) :
    splitCC (a ++ 58 :: 58 :: r) = a :: splitCC r := by
  induction a with
  | nil => simp [splitCC]
  | cons c a' ih =>
    have hc : c ≠ 58 := fun h => ha (h ▸ List.mem_cons_self c a')
    have ha' : 58 ∉ a' := fun h => ha (List.mem_cons_of_mem c h)
    cases a' with
    | nil => simp [splitCC, hc]
    | cons d a'' =>
      have ih' := ih ha'
      simp only [List.cons_append] at ih'
      simp [splitCC, hc, ih']

/-- Rust `str::split("::")` of a separator-free string is that string
alone. -/
theorem splitCC_nosep (b : List Nat) (hb : 58 ∉ b) : splitCC b = [b] := by
  induction b with
  | nil => rfl
  | cons c b' ih =>
    have hc : c ≠ 58 := fun h => hb (h ▸ List.mem_cons_self c b')
    have hb' : 58 ∉ b' := fun h => hb (List.mem_cons_of_mem c h)
    cases b' with
    | nil => rfl
    | cons d b'' => simp [splitCC, hc, ih hb']

/-! ## Concrete inputs used by the claim theorems -/

/-- A scope holding the single mutable binding x = Number 1. -/
def scX1 : ContainingScope :=
  { emptyScope with mutables := [([0x78], Literal.Number 1)] }

/-- A scope holding the single mutable binding x = Number 7, used as the
source scope of an import. -/
def scSrc7 : ContainingScope :=
  { emptyScope with mutables := [([0x78], Literal.Number 7)] }

/-- A scope that imports the name x from the scope named "s". -/
def scImporting : ContainingScope :=
  { emptyScope with imports := [([0x73], [[0x78]])] }

/-- The qualified name "std::io::print". -/
def nmStdIoPrint : RStr :=
  [0x73, 0x74, 0x64, 0x3A, 0x3A, 0x69, 0x6F, 0x3A, 0x3A,
   0x70, 0x72, 0x69, 0x6E, 0x74]

/-- A minimal evaluator state: one scope named "g", current, at global
level. -/
def stG : VmState :=
  { tks := [], lit_stack := [], current_scope := [0x67],
    scopes := [([0x67], emptyScope)], scope_types := [.Global] }

/-! ## The claims -/

/-- Claim C1: the spec asserts read(write(v)) = v for every literal of
the value universe; the code refutes it. Writing the empty string yields
the buffer 03 00 00, and String::read then misparses it - it slices the
whole buffer at [1..2], returning the one NUL byte - so the round trip
of String "" returns String "\x00"; the round trip of Char 'a' returns
Char '\x04' because char::read decodes the whole buffer, tag byte
included. (Number, Float, Bool and Void do round-trip.) -/
theorem c1_literal_roundtrip_fails :
    litRoundTrip (Literal.String []) = some (Literal.String [0]) ∧
    litRoundTrip (Literal.String []) ≠ some (Literal.String []) ∧
    litRoundTrip (Literal.Char 97) = some (Literal.Char 4) ∧
    litRoundTrip (Literal.Char 97) ≠ some (Literal.Char 97) := by decide

/-- Claim C2: the spec asserts transmute(n, "num") = n; the code reads
the i64 from cursor position 0 of the buffer Literal::write just filled,
so the eight bytes it consumes start with the 0x01 discriminant and drop
the value's lowest byte: transmute(120000, "num") returns
72057594037928404 (= 2^56 + 0x1D4), not 120000. -/
theorem c2_transmute_num_diverges :
    memTransmute [Literal.Number 120000, Literal.TypeName bNum] =
      some (Literal.Number 72057594037928404) ∧
    (72057594037928404 : Int) ≠ 120000 := by decide

/-- Claim C3: the spec asserts every scope survives the write/read round
trip; the code refutes it for every scope with at least one binding.
For a scope with the single mutable x = 1 the mutables map is written
with a little-endian length-prefixed key, String::read misparses the
key's length as 256 and overruns the buffer, so the read fails (and even
with a parseable key, HashMap::read's insert(..).unwrap() panics on any
first entry; the writer also emits consts twice and never emits
extern_fns). -/
theorem c3_scope_roundtrip_fails :
    scopeRoundTrip scX1 = none ∧ scX1.mutables ≠ [] := by
  exact ⟨rfl, by decide⟩

/-- Claim C4: the spec asserts min returns the smaller and max the
larger argument (likewise minf/maxf); the code swaps them: min(1,2)
evaluates to 2, max(1,2) to 1, minf(1.0,2.0) to 2.0 and maxf(1.0,2.0)
to 1.0 (float payloads are IEEE-754 bit patterns; 0x3FF0000000000000 is
1.0 and 0x4000000000000000 is 2.0). -/
theorem c4_min_max_swapped :
    mathMin [Literal.Number 1, Literal.Number 2] = some (Literal.Number 2) ∧
    mathMax [Literal.Number 1, Literal.Number 2] = some (Literal.Number 1) ∧
    mathMinf [Literal.Float 0x3FF0000000000000, Literal.Float 0x4000000000000000]
      = some (Literal.Float 0x4000000000000000) ∧
    mathMaxf [Literal.Float 0x3FF0000000000000, Literal.Float 0x4000000000000000]
      = some (Literal.Float 0x3FF0000000000000) := by decide

/-- Claim C5, counterexample: the claim says assigning a
differently-typed literal to an existing mutable binding fails and
leaves the binding unchanged; on the scope binding x = Number 1,
assigning the Bool true succeeds and replaces the binding (the handler
stores through add_var, which never type-checks). -/
theorem c5_assign_counterexample :
    binaryAssign (Token.Literal (Literal.Ident [0x78])) (Literal.Bool true)
        scX1 = some (scopeAddVar scX1 [0x78] (Literal.Bool true)) ∧
    lookupKey [0x78] (scopeAddVar scX1 [0x78] (Literal.Bool true)).mutables =
      some (Literal.Bool true) ∧
    typeMatches (Literal.Number 1) (Literal.Bool true) = false := by
  exact ⟨rfl, by decide, by decide⟩

/-- Claim C5 (amended): Assign with an identifier left operand stores
the evaluated right-hand literal into the current scope's mutables
unconditionally via ContainingScope::add_var; no type-tag comparison is
made, so an assignment whose value has a different type tag than the
current one succeeds and the binding afterwards holds the new value. -/
theorem c5_assign_overwrites (sc : ContainingScope) (name : RStr)
    (old v : Literal) (_hbound : lookupKey name sc.mutables = some old)
    (_hty : typeMatches old v = false) :
    binaryAssign (Token.Literal (Literal.Ident name)) v sc =
      some (scopeAddVar sc name v) ∧
    lookupKey name (scopeAddVar sc name v).mutables = some v :=
  ⟨rfl, lookupKey_insertKey name v sc.mutables⟩

/-- Claim C5, witness for the amended theorem at the concrete scope
x = Number 1 with the differently-typed value Bool true. -/
theorem c5_assign_overwrites_witness :
    binaryAssign (Token.Literal (Literal.Ident [0x78])) (Literal.Bool true)
        scX1 = some (scopeAddVar scX1 [0x78] (Literal.Bool true)) ∧
    lookupKey [0x78] (scopeAddVar scX1 [0x78] (Literal.Bool true)).mutables =
      some (Literal.Bool true) :=
  c5_assign_overwrites scX1 [0x78] (Literal.Number 1) (Literal.Bool true)
    (by decide) (by decide)

/-- Claim C6: the claim says any name bound in the import-source scope
(constant, mutable, structure or function) resolves through the merged
view; for a MUTABLE binding it does not. get_any_value tests the mutable
lookup but builds its result from the constant lookup, whose `?`
propagates None, so the source scope binding x = Number 7 resolves to
None and Vm::merged_scope panics on the import instead of yielding the
binding. -/
theorem c6_import_mutable_lookup_fails :
    scopeGetVar scSrc7 [0x78] = some (Literal.Number 7) ∧
    getAnyValue scSrc7 [0x78] = none ∧
    mergedScope [([0x67], scImporting), ([0x73], scSrc7)] [0x67] = none := by
  exact ⟨by decide, rfl, rfl⟩

/-- Claim C7, counterexample: the claim says importing std::io::print
records member "print" under source scope "std::io"; the code splits on
every "::" and keeps segments 0 and 1, recording member "io" under
source scope "std". -/
theorem c7_import_split_counterexample :
    (importKw nmStdIoPrint emptyScope).map ContainingScope.imports =
      some [([0x73, 0x74, 0x64], [[0x69, 0x6F]])] ∧
    (some [([0x73, 0x74, 0x64], [[0x69, 0x6F]])] :
        Option (List (RStr × List RStr))) ≠
      some [([0x73, 0x74, 0x64, 0x3A, 0x3A, 0x69, 0x6F],
             [[0x70, 0x72, 0x69, 0x6E, 0x74]])] := by
  exact ⟨rfl, by decide⟩

/-- Claim C7 (amended): Import splits the qualified name at the FIRST
"::" and records the second segment as a member under the first segment
as the source scope; for a two-segment name a::b (neither segment
containing a colon) this records b under a, which coincides with the
claim only in that case. -/
theorem c7_import_first_split (a b : RStr) (sc : ContainingScope)
    (ha : 58 ∉ a) (hb : 58 ∉ b) :
    importKw (a ++ [58, 58] ++ b) sc = some (scopeImport sc a b) := by
  have h1 : splitCC (a ++ 58 :: 58 :: b) = [a, b] := by
    rw [splitCC_append a b ha, splitCC_nosep b hb]
  simp only [List.append_assoc, List.cons_append, List.nil_append]
  simp [importKw, h1]

/-- Claim C7, witness for the amended theorem: importing "std::io"
records member "io" under source scope "std". -/
theorem c7_import_first_split_witness :
    importKw ([0x73, 0x74, 0x64] ++ [58, 58] ++ [0x69, 0x6F]) emptyScope =
      some (scopeImport emptyScope [0x73, 0x74, 0x64] [0x69, 0x6F]) :=
  c7_import_first_split [0x73, 0x74, 0x64] [0x69, 0x6F] emptyScope
    (by decide) (by decide)

/-- A static function declaring the single parameter "varargs". -/
def fnVarargs : StaticFn :=
  { out_ty := bNum, param_names := [bVarargs], chain := [] }

/-- An extern function declaring the single parameter "varargs". -/
def extVarargs : ExternFn :=
  { out_ty := bNum, param_names := [bVarargs], handler := 1 }

/-- Claim C8, counterexample: the claim says a param_names list
containing the sentinel "varargs" lifts the arity check so any argument
count is accepted; no such sentinel exists in fns.rs, so calling either
callable form declared with the single parameter "varargs" and two
arguments fails the arity check. -/
theorem c8_varargs_counterexample :
    staticCall fnVarargs [Literal.Number 1, Literal.Number 2] [0x61] id stG =
      none ∧
    externCall [fun _ => Literal.Void] extVarargs
      [Literal.Number 1, Literal.Number 2] = none := by
  exact ⟨rfl, rfl⟩

/-- Claim C8 (amended): every callable invocation whose argument count
differs from the length of param_names fails with an arity error,
without exception - fns.rs has no handling of a "varargs" sentinel, so
a sentinel-bearing parameter list still demands exactly its own
length. -/
theorem c8_strict_arity (f : StaticFn) (e : ExternFn) (params : List Literal)
    (fresh : RStr) (runBody : VmState → VmState) (st : VmState)
    (table : List (List Literal → Literal))
    (hf : params.length ≠ f.param_names.length)
    (he : params.length ≠ e.param_names.length) :
    staticCall f params fresh runBody st = none ∧
    externCall table e params = none := by
  constructor
  · simp [staticCall, hf]
  · simp [externCall, he]

/-- Claim C8, witness for the amended theorem at the "varargs"-declared
callables with two arguments. -/
theorem c8_strict_arity_witness :
    staticCall fnVarargs [Literal.Number 1, Literal.Number 2] [0x61] id stG =
      none ∧
    externCall [] extVarargs [Literal.Number 1, Literal.Number 2] = none :=
  c8_strict_arity fnVarargs extVarargs [Literal.Number 1, Literal.Number 2]
    [0x61] id stG [] (by decide) (by decide)

/-- A static function declaring out-type "unknown" with an empty body. -/
def fnUnknown : StaticFn :=
  { out_ty := bUnknown, param_names := [], chain := [] }

/-- A static function declaring out-type "num" with an empty body. -/
def fnRetNum : StaticFn :=
  { out_ty := bNum, param_names := [], chain := [] }

/-- Claim C9, counterexample: the claim says out_type "unknown"
suppresses the return-type check; fns.rs has no such exception, so a
call whose body leaves Number 5 on the stack under declared out-type
"unknown" fails the type_str check (a Number matches only "num"). -/
theorem c9_unknown_counterexample :
    staticCall fnUnknown [] [0x61] (pushStack (Literal.Number 5)) stG =
      none := by
  exact rfl

/-- Claim C9 (amended): when a user-defined static function invocation
completes, the returned literal satisfies type_str against the declared
out_type, with NO exception for "unknown" - the check always runs. (An
Ident return value passes any check since type_str holds for Ident
against every tag; a function declared "unknown" returning any other
literal fails, as no canonical tag equals "unknown".) -/
theorem c9_return_type_checked (f : StaticFn) (params : List Literal)
    (fresh : RStr) (runBody : VmState → VmState) (st st' : VmState)
    (out : Literal)
    (h : staticCall f params fresh runBody st = some (st', out)) :
    typeStr out f.out_ty = true := by
  unfold staticCall at h
  split at h
  · rw [Option.bind_eq_some] at h
    obtain ⟨act, -, h⟩ := h
    rw [Option.bind_eq_some] at h
    obtain ⟨ov, -, h⟩ := h
    split at h
    case isTrue hty =>
      rw [Option.bind_eq_some] at h
      obtain ⟨dropped, -, h⟩ := h
      rw [Option.map_eq_some'] at h
      obtain ⟨ls, -, heq⟩ := h
      injection heq with h1 h2
      rw [← h2]
      exact hty
    case isFalse => exact absurd h (by simp)
  · exact absurd h (by simp)

/-- Claim C9, witness: a successful call of a function declared "num"
whose body returns Number 0, through the amended theorem. -/
theorem c9_return_type_checked_witness :
    typeStr (Literal.Number 0) fnRetNum.out_ty = true :=
  c9_return_type_checked fnRetNum [] [0x61] (pushStack (Literal.Number 0))
    stG stG (Literal.Number 0) rfl

/-- Claim C10: after a successful user-defined static-function
invocation whose body run leaves the scope-level stack as it found it,
the evaluator's current-scope name equals its pre-call value, the fresh
anonymous activation scope has been removed from the scope map, and the
scope-level stack is restored to its pre-call value. -/
theorem c10_call_frame_restored (f : StaticFn) (params : List Literal)
    (fresh : RStr) (runBody : VmState → VmState) (st st' : VmState)
    (out : Literal)
    (hbody : ∀ s, (runBody s).scope_types = s.scope_types)
    (hcall : staticCall f params fresh runBody st = some (st', out)) :
    st'.current_scope = st.current_scope ∧
    lookupKey fresh st'.scopes = none ∧
    st'.scope_types = st.scope_types := by
  unfold staticCall at hcall
  split at hcall
  · rw [Option.bind_eq_some] at hcall
    obtain ⟨act, -, hcall⟩ := hcall
    rw [Option.bind_eq_some] at hcall
    obtain ⟨ov, hpop, hcall⟩ := hcall
    obtain ⟨retv, ovst⟩ := ov
    split at hcall
    case isTrue hty =>
      rw [Option.bind_eq_some] at hcall
      obtain ⟨dropped, hdrop, hcall⟩ := hcall
      rw [Option.map_eq_some'] at hcall
      obtain ⟨ls, hlvl, heq⟩ := hcall
      obtain ⟨lvl, stfin⟩ := ls
      injection heq with h1 h2
      subst h1
      obtain ⟨hp1, hp2, hp3⟩ := popStack_fields _ _ _ hpop
      obtain ⟨hd1, hd2, hd3⟩ := dropScope_fields _ _ _ hdrop
      obtain ⟨hl1, hl2, hl3⟩ := popScopeLevel_fields _ _ _ hlvl
      refine ⟨?_, ?_, ?_⟩
      · rw [hl2, hd2]; rfl
      · rw [hl3, hd1]
        exact lookupKey_eraseKey fresh _
      · have hRun : dropped.scope_types =
            ScopeLevel.InstanceFunction :: st.scope_types := by
          rw [hd3]
          show ovst.scope_types = _
          rw [hp3, hbody, (loadChain_fields f.chain _).2.2.2]
          rfl
        rw [hRun] at hl1
        exact (List.cons.inj hl1).2.symm
    case isFalse => exact absurd hcall (by simp)
  · exact absurd hcall (by simp)

/-- Claim C10, witness: a successful concrete call returns to the state
it started from (same current scope "g", no activation scope "a" left,
same scope-level stack), through the theorem. -/
theorem c10_call_frame_restored_witness :
    stG.current_scope = stG.current_scope ∧
    lookupKey [0x61] stG.scopes = none ∧
    stG.scope_types = stG.scope_types :=
  c10_call_frame_restored fnRetNum [] [0x61] (pushStack (Literal.Number 0))
    stG stG (Literal.Number 0) (fun _ => rfl) rfl

end GaleVM
